import Mathlib

/-
Verification development for the writer / consistency-controller core of a
logical database-export tool (package export): the output file namer, the
writer task loop with its callbacks, the per-attempt chunk-write body, and
the consistency controllers.  Go machine integers are modelled as Nat where
the program only produces non-negative values (chunk and file counters);
fallible operations return Option Err or Except Err; the external
collaborators (statement execution, row source, storage) are modelled as
environments of result-returning functions, and the observable side effects
(callback invocations, issued statements, row-source lifecycle calls) are
returned as explicit event traces.
-/

abbrev Err := String

abbrev Conn := Nat

/- ---------------------------------------------------------------------
Decimal rendering: embedding of the zero-padding integer format verbs the
program uses via fmt.Sprintf (width 9 and width 4, non-negative values).
--------------------------------------------------------------------- -/

/-- Little-endian base-10 digits of a natural number, with explicit fuel so
that the recursion is structural; fuel n is enough for input n. -/
def natToBaseDigits : Nat → Nat → List Nat
  | 0, _ => []
  | fuel + 1, n => if n = 0 then [] else n % 10 :: natToBaseDigits fuel (n / 10)

/-- Little-endian base-10 digits of a natural number. -/
def goDigitsLE (n : Nat) : List Nat := natToBaseDigits n n

/-- Big-endian decimal digit list; 0 prints as one digit, as in Go. -/
def goDigitsBE (n : Nat) : List Nat := if n = 0 then [0] else (goDigitsLE n).reverse

/-- Embedding of the Go fmt zero-padded decimal of width w for a
non-negative value: the decimal digits, left-padded with zeros to width w,
as characters. -/
def goPadDecimal (w n : Nat) : List Char :=
  (List.replicate (w - (goDigitsBE n).length) 0 ++ goDigitsBE n).map Nat.digitChar

/-- The zero-padded decimal as a string, the result of the format verb. -/
def goSprintf0d (w n : Nat) : String := String.mk (goPadDecimal w n)

/-- Numeric value of a decimal digit character. -/
def charVal (ch : Char) : Nat := ch.toNat - 48

/-- Value of a little-endian digit list. -/
def ofDigitsLE : List Nat → Nat
  | [] => 0
  | d :: ds => d + 10 * ofDigitsLE ds

/-- Decode a zero-padded decimal character list back to its value. -/
def decodeIndex (cs : List Char) : Nat := ofDigitsLE ((cs.map charVal).reverse)

/- ---------------------------------------------------------------------
Output file namer.  The development lives in a namespace named after the
repository, because a few of the source type names (Task, Writer) exist in
the Lean root namespace.
--------------------------------------------------------------------- -/

namespace Dumpling

structure TableMeta where
  DatabaseName : String
  TableName : String
deriving DecidableEq

structure outputFileNamer where
  ChunkIndex : Nat
  FileIndex : Nat
  DB : String
  Table : String
  format : String
deriving DecidableEq

/-- Embedding of fmt.Sprintf applied to the namer format field for the
three format strings the program constructs: chunk index zero-padded to
width 9 followed by file index zero-padded to width 4; the file index alone
zero-padded to width 9; the chunk index alone zero-padded to width 9. -/
def sprintfIndexFmt (format : String) (chunkIndex fileIndex : Nat) : String :=
  if format = "%09d%04d" then goSprintf0d 9 chunkIndex ++ goSprintf0d 4 fileIndex
  else if format = "%09[2]d" then goSprintf0d 9 fileIndex
  else goSprintf0d 9 chunkIndex

def newOutputFileNamer (meta : TableMeta) (chunkIdx : Nat) (rows fileSize : Bool) :
    outputFileNamer :=
  { DB := meta.DatabaseName
    Table := meta.TableName
    ChunkIndex := chunkIdx
    FileIndex := 0
    format := if rows && fileSize then "%09d%04d"
              else if fileSize then "%09[2]d"
              else "%09[1]d" }

def outputFileNamer.Index (namer : outputFileNamer) : String :=
  sprintfIndexFmt namer.format namer.ChunkIndex namer.FileIndex

/-- Modelled from the spec: the output-file template with its data
sub-template is defined outside the given sources.  Per the spec the data
sub-template renders the namer fields, and downstream tooling depends on the
exact index shape in file names, so the data sub-template is modelled as the
database name, table name and Index joined by dots. -/
def outputFileNamer.renderData (namer : outputFileNamer) : String :=
  namer.DB ++ "." ++ namer.Table ++ "." ++ namer.Index

/-- NextName renders the data sub-template, advances the file index, and
appends the file extension. -/
def outputFileNamer.NextName (namer : outputFileNamer) (fileType : String) :
    String × outputFileNamer :=
  (namer.renderData ++ "." ++ fileType, { namer with FileIndex := namer.FileIndex + 1 })

/-- The names produced by n successive NextName calls. -/
def nextNames (namer : outputFileNamer) (ext : String) : Nat → List String
  | 0 => []
  | n + 1 => (namer.NextName ext).1 :: nextNames (namer.NextName ext).2 ext n

/-- The namer state after n successive NextName calls. -/
def iterNamer (namer : outputFileNamer) (ext : String) : Nat → outputFileNamer
  | 0 => namer
  | n + 1 => ((iterNamer namer ext n).NextName ext).2

/- ---------------------------------------------------------------------
Writer: task type, state, handleTask and the run loop.
--------------------------------------------------------------------- -/

/-- Abstract handle of a row source (TableDataIR); its behaviour is
supplied by environments. -/
abbrev TableDataIR := Nat

/-- The closed set of writer task variants; the extra constructor stands
for any dynamic value outside the four known pointer types, which the Go
type switch sends to its default branch. -/
inductive Task where
  | databaseMeta (DatabaseName CreateDatabaseSQL : String)
  | tableMeta (DatabaseName TableName CreateTableSQL : String)
  | viewMeta (DatabaseName ViewName CreateTableSQL CreateViewSQL : String)
  | tableData (Meta : TableMeta) (Data : TableDataIR) (ChunkIndex TotalChunks : Nat)
  | unknown (typeName : String)
deriving DecidableEq

/-- Writer state; κ is the type of the registered callback values. -/
structure Writer (κ : Type) where
  id : Int
  receivedTaskCount : Nat
  finishTaskCallBack : κ
  finishTableCallBack : κ

def Writer.setFinishTaskCallBack {κ : Type} (w : Writer κ) (fn : κ) : Writer κ :=
  { w with finishTaskCallBack := fn }

/-- Mirrors the source exactly: this setter also assigns the
finishTaskCallBack field. -/
def Writer.setFinishTableCallBack {κ : Type} (w : Writer κ) (fn : κ) : Writer κ :=
  { w with finishTaskCallBack := fn }

/-- Observable callback invocation: which callback value was called, with
which task. -/
inductive WEvent (κ : Type) where
  | callback (cb : κ) (t : Task)
deriving DecidableEq

/-- Outcomes of the four writing routines the task handler delegates to,
supplied by the surrounding run. -/
structure WriteEnv where
  writeDatabaseMeta : String → String → Option Err
  writeTableMeta : String → String → String → Option Err
  writeViewMeta : String → String → String → String → Option Err
  writeTableData : TableMeta → TableDataIR → Nat → Option Err

/-- The task dispatch of the writer: result of handling, plus the callback
invocations performed inside handleTask. -/
def Writer.handleTask {κ : Type} (env : WriteEnv) (w : Writer κ) (task : Task) :
    Option Err × List (WEvent κ) :=
  match task with
  | Task.databaseMeta db createSQL => (env.writeDatabaseMeta db createSQL, [])
  | Task.tableMeta db tbl createSQL => (env.writeTableMeta db tbl createSQL, [])
  | Task.viewMeta db v ct cv => (env.writeViewMeta db v ct cv, [])
  | Task.tableData meta data chunkIndex totalChunks =>
    match env.writeTableData meta data chunkIndex with
    | some e => (some e, [])
    | none =>
      if chunkIndex + 1 = totalChunks then
        (none, [WEvent.callback w.finishTableCallBack
          (Task.tableData meta data chunkIndex totalChunks)])
      else (none, [])
  | Task.unknown _ => (none, [])

/-- One observation of the select at the top of the run loop: the
cancellation signal fired, the task channel was closed, or a task was
received. -/
inductive Recv where
  | cancelled
  | closed
  | task (t : Task)

/-- Result of the run loop on a finite observation sequence: still blocked
waiting, or returned with the given result. -/
inductive RunOutcome where
  | blocked
  | done (err : Option Err)
deriving DecidableEq

/-- The writer run loop: processes observations in order, returning the
final outcome, the callback invocations in order, and the final writer
state. -/
def Writer.run {κ : Type} (env : WriteEnv) (w : Writer κ) :
    List Recv → RunOutcome × List (WEvent κ) × Writer κ
  | [] => (RunOutcome.blocked, [], w)
  | Recv.cancelled :: _ => (RunOutcome.done none, [], w)
  | Recv.closed :: _ => (RunOutcome.done none, [], w)
  | Recv.task t :: rest =>
    let w1 : Writer κ := { w with receivedTaskCount := w.receivedTaskCount + 1 }
    match Writer.handleTask env w1 t with
    | (some e, evs) => (RunOutcome.done (some e), evs, w1)
    | (none, evs) =>
      let r := Writer.run env w1 rest
      (r.1, evs ++ WEvent.callback w1.finishTaskCallBack t :: r.2.1, r.2.2)

/- ---------------------------------------------------------------------
One attempt of the chunk-write body of Writer.WriteTableData: connection
rebuild on retries, row-source start, deferred row-source close, inner
write.  The trace records the row-source lifecycle calls of the attempt.
--------------------------------------------------------------------- -/

inductive IREvent where
  | rebuild
  | start
  | write
  | close
deriving DecidableEq

/-- Outcomes of the collaborators of one attempt: the connection rebuild
function, the Start call of the row source, and the inner writeTableData. -/
structure AttemptEnv where
  rebuildConn : Conn → Except Err Conn
  start : Option Err
  writeTableData : Option Err

/-- The part of the attempt after a connection is settled: Start the row
source; on Start failure return at once (the close is deferred only after
this point); otherwise run the inner write and close the row source on the
way out, whatever the write returned. -/
def startWriteClose (env : AttemptEnv) : Option Err × List IREvent :=
  match env.start with
  | some e => (some e, [IREvent.start])
  | none => (env.writeTableData, [IREvent.start, IREvent.write, IREvent.close])

/-- One attempt of the retried chunk write: retryTime is the attempt number
after the increment at the top of the closure; attempts after the first
rebuild the connection first and abort the attempt if the rebuild fails. -/
def writeTableDataAttempt (env : AttemptEnv) (retryTime : Nat) (conn : Conn) :
    Option Err × List IREvent × Conn :=
  if 1 < retryTime then
    match env.rebuildConn conn with
    | Except.error e => (some e, [IREvent.rebuild], conn)
    | Except.ok conn2 =>
      ((startWriteClose env).1, IREvent.rebuild :: (startWriteClose env).2, conn2)
  else
    ((startWriteClose env).1, (startWriteClose env).2, conn)

/- ---------------------------------------------------------------------
Consistency controllers.
--------------------------------------------------------------------- -/

inductive ServerType where
  | ServerTypeUnknown
  | ServerTypeMySQL
  | ServerTypeMariaDB
  | ServerTypeTiDB
deriving DecidableEq

structure ServerInfo where
  serverType : ServerType
deriving DecidableEq

abbrev DatabaseTables := List String

structure Config where
  Consistency : String
  ServerInfo : ServerInfo
  Tables : DatabaseTables

def consistencyTypeAuto : String := "auto"
def consistencyTypeFlush : String := "flush"
def consistencyTypeLock : String := "lock"
def consistencyTypeSnapshot : String := "snapshot"
def consistencyTypeNone : String := "none"

structure ConsistencyFlushTableWithReadLock where
  serverType : ServerType
  conn : Option Conn
deriving DecidableEq

structure ConsistencyLockDumpingTables where
  conn : Option Conn
  allTables : DatabaseTables
deriving DecidableEq

inductive ConsistencyController where
  | consistencyNone
  | flushTableWithReadLock (c : ConsistencyFlushTableWithReadLock)
  | lockDumpingTables (c : ConsistencyLockDumpingTables)
deriving DecidableEq

/-- The consistency-controller constructor; connResult is the outcome of
taking a dedicated connection from the session pool, which the source does
first and whose failure is returned directly. -/
def NewConsistencyController (connResult : Except Err Conn) (conf : Config) :
    Except Err ConsistencyController :=
  match connResult with
  | Except.error e => Except.error e
  | Except.ok conn =>
    if conf.Consistency = consistencyTypeFlush then
      Except.ok (ConsistencyController.flushTableWithReadLock
        { serverType := conf.ServerInfo.serverType, conn := some conn })
    else if conf.Consistency = consistencyTypeLock then
      Except.ok (ConsistencyController.lockDumpingTables
        { conn := some conn, allTables := conf.Tables })
    else if conf.Consistency = consistencyTypeSnapshot then
      if conf.ServerInfo.serverType ≠ ServerType.ServerTypeTiDB then
        Except.error ("snapshot consistency is not supported for this server")
      else Except.ok ConsistencyController.consistencyNone
    else if conf.Consistency = consistencyTypeNone then
      Except.ok ConsistencyController.consistencyNone
    else
      Except.error ("invalid consistency option " ++ conf.Consistency)

/-- Outcomes of the statements a controller issues on its connection; the
argument is the connection value passed (matching the nilable Go field). -/
structure ConnEnv where
  flushTableWithReadLock : Option Conn → Option Err
  unlockTables : Option Conn → Option Err
  ping : Conn → Option Err

/-- Statements and connection operations a controller method performed. -/
inductive ConnAction where
  | flushTableWithReadLock (conn : Option Conn)
  | unlockTables (conn : Option Conn)
  | closeConn (conn : Conn)
deriving DecidableEq

/-- The error message of PingContext after teardown. -/
def closedConnErr : Err := "consistency connection has already been closed"

/-- The Setup error on TiDB (the single quotation marks around the
statement name in the source message are omitted here). -/
def flushOnTiDBErr : Err :=
  "flush table with read lock cannot be used to ensure the consistency in TiDB"

/-- Setup of the flush controller: fail fast on TiDB without touching the
connection, otherwise issue the flush-with-read-lock statement. -/
def ConsistencyFlushTableWithReadLock.Setup (c : ConsistencyFlushTableWithReadLock)
    (env : ConnEnv) : Option Err × List ConnAction :=
  if c.serverType = ServerType.ServerTypeTiDB then
    (some flushOnTiDBErr, [])
  else
    (env.flushTableWithReadLock c.conn, [ConnAction.flushTableWithReadLock c.conn])

/-- TearDown of the flush controller: no-op when the connection is already
gone; otherwise unlock tables, then (deferred) close the connection and
clear the field. -/
def ConsistencyFlushTableWithReadLock.TearDown (c : ConsistencyFlushTableWithReadLock)
    (env : ConnEnv) : ConsistencyFlushTableWithReadLock × Option Err × List ConnAction :=
  match c.conn with
  | none => (c, none, [])
  | some cn =>
    ({ c with conn := none }, env.unlockTables (some cn),
      [ConnAction.unlockTables (some cn), ConnAction.closeConn cn])

def ConsistencyFlushTableWithReadLock.PingContext
    (c : ConsistencyFlushTableWithReadLock) (env : ConnEnv) : Option Err :=
  match c.conn with
  | none => some closedConnErr
  | some cn => env.ping cn

/-- TearDown of the table-lock controller, identical in shape to the flush
controller. -/
def ConsistencyLockDumpingTables.TearDown (c : ConsistencyLockDumpingTables)
    (env : ConnEnv) : ConsistencyLockDumpingTables × Option Err × List ConnAction :=
  match c.conn with
  | none => (c, none, [])
  | some cn =>
    ({ c with conn := none }, env.unlockTables (some cn),
      [ConnAction.unlockTables (some cn), ConnAction.closeConn cn])

def ConsistencyLockDumpingTables.PingContext
    (c : ConsistencyLockDumpingTables) (env : ConnEnv) : Option Err :=
  match c.conn with
  | none => some closedConnErr
  | some cn => env.ping cn

/- ---------------------------------------------------------------------
Concrete sample values used by witnesses and counterexamples.
--------------------------------------------------------------------- -/

/-- A sample writer whose callback values are the numbers 0 (task) and 1
(table). -/
def wSample : Writer Nat :=
  { id := 7, receivedTaskCount := 0, finishTaskCallBack := 0, finishTableCallBack := 1 }

/-- An environment in which every writing routine succeeds. -/
def envAllOk : WriteEnv :=
  { writeDatabaseMeta := fun _ _ => none
    writeTableMeta := fun _ _ _ => none
    writeViewMeta := fun _ _ _ _ => none
    writeTableData := fun _ _ _ => none }

/-- An environment in which writing a database meta file fails. -/
def envDbFail : WriteEnv :=
  { envAllOk with writeDatabaseMeta := fun _ _ => some ("meta write failed") }

def metaSample : TableMeta := { DatabaseName := "db", TableName := "tbl" }

def taskDbSample : Task := Task.databaseMeta ("db") ("CREATE DATABASE db")

def connEnvSample : ConnEnv :=
  { flushTableWithReadLock := fun _ => none
    unlockTables := fun _ => none
    ping := fun _ => none }

/-- An attempt environment whose row source starts and writes fine. -/
def attemptEnvOk : AttemptEnv :=
  { rebuildConn := fun cn => Except.ok cn, start := none, writeTableData := none }

/-- An attempt environment whose row source fails to start. -/
def attemptEnvStartFail : AttemptEnv :=
  { attemptEnvOk with start := some ("start failed") }

def confSnapshotMySQL : Config :=
  { Consistency := "snapshot"
    ServerInfo := { serverType := ServerType.ServerTypeMySQL }
    Tables := [] }

def confAuto : Config :=
  { Consistency := "auto"
    ServerInfo := { serverType := ServerType.ServerTypeMySQL }
    Tables := [] }

end Dumpling

/- ---------------------------------------------------------------------
Lemmas on the decimal rendering.
--------------------------------------------------------------------- -/

theorem ofDigitsLE_natToBaseDigits :
    ∀ fuel n, n ≤ fuel → ofDigitsLE (natToBaseDigits fuel n) = n := by
  intro fuel
  induction fuel with
  | zero =>
    intro n hn
    have h0 : n = 0 := Nat.le_zero.mp hn
    simp [natToBaseDigits, h0, ofDigitsLE]
  | succ fuel ih =>
    intro n hn
    by_cases h0 : n = 0
    · simp [natToBaseDigits, h0, ofDigitsLE]
    · have hdiv : n / 10 ≤ fuel := by
        have hlt : n / 10 < n := Nat.div_lt_self (Nat.pos_of_ne_zero h0) (by norm_num)
        omega
      simp only [natToBaseDigits, h0, if_false, ofDigitsLE, ih _ hdiv]
      omega

theorem natToBaseDigits_lt :
    ∀ fuel n d, d ∈ natToBaseDigits fuel n → d < 10 := by
  intro fuel
  induction fuel with
  | zero => intro n d hd; simp [natToBaseDigits] at hd
  | succ fuel ih =>
    intro n d hd
    by_cases h0 : n = 0
    · simp [natToBaseDigits, h0] at hd
    · simp only [natToBaseDigits, h0, if_false, List.mem_cons] at hd
      rcases hd with hd | hd
      · subst hd; exact Nat.mod_lt n (by norm_num)
      · exact ih _ _ hd

theorem charVal_digitChar : ∀ d, d < 10 → charVal (Nat.digitChar d) = d := by decide

theorem ofDigitsLE_append_replicate_zero :
    ∀ (l : List Nat) (k : Nat), ofDigitsLE (l ++ List.replicate k 0) = ofDigitsLE l := by
  intro l
  induction l with
  | nil =>
    intro k
    induction k with
    | zero => rfl
    | succ k ihk => simpa [List.replicate_succ, ofDigitsLE] using ihk
  | cons d ds ih =>
    intro k
    simp [ofDigitsLE, ih k]

theorem goDigitsBE_lt : ∀ n d, d ∈ goDigitsBE n → d < 10 := by
  intro n d hd
  by_cases h0 : n = 0
  · simp [goDigitsBE, h0] at hd
    omega
  · simp only [goDigitsBE, h0, if_false, List.mem_reverse] at hd
    exact natToBaseDigits_lt n n d hd

theorem decodeIndex_goPadDecimal (w n : Nat) : decodeIndex (goPadDecimal w n) = n := by
  unfold decodeIndex goPadDecimal
  rw [List.map_map]
  have hmap :
      (List.replicate (w - (goDigitsBE n).length) 0 ++ goDigitsBE n).map
          (charVal ∘ Nat.digitChar) =
        List.replicate (w - (goDigitsBE n).length) 0 ++ goDigitsBE n := by
    have hid : ∀ d ∈ List.replicate (w - (goDigitsBE n).length) 0 ++ goDigitsBE n,
        (charVal ∘ Nat.digitChar) d = id d := by
      intro d hd
      rcases List.mem_append.mp hd with hd | hd
      · have h0 : d = 0 := List.eq_of_mem_replicate hd
        subst h0
        exact charVal_digitChar 0 (by norm_num)
      · exact charVal_digitChar d (goDigitsBE_lt n d hd)
    rw [List.map_congr_left hid, List.map_id]
  rw [hmap, List.reverse_append, List.reverse_replicate,
    ofDigitsLE_append_replicate_zero]
  by_cases h0 : n = 0
  · simp [goDigitsBE, h0, ofDigitsLE]
  · simp only [goDigitsBE, h0, if_false, List.reverse_reverse]
    exact ofDigitsLE_natToBaseDigits n n (Nat.le_refl n)

theorem goPadDecimal_injective (w i j : Nat)
    (h : goPadDecimal w i = goPadDecimal w j) : i = j := by
  have hd := congrArg decodeIndex h
  rwa [decodeIndex_goPadDecimal, decodeIndex_goPadDecimal] at hd

theorem string_data_append (a b : String) : (a ++ b).data = a.data ++ b.data := by
  cases a; cases b; rfl

theorem goSprintf0d_data (w n : Nat) : (goSprintf0d w n).data = goPadDecimal w n := rfl

/- ---------------------------------------------------------------------
Namer theorems.
--------------------------------------------------------------------- -/

namespace Dumpling

theorem sprintfIndexFmt_both (c f : Nat) :
    sprintfIndexFmt ("%09d%04d") c f = goSprintf0d 9 c ++ goSprintf0d 4 f := by
  unfold sprintfIndexFmt
  rw [if_pos rfl]

theorem sprintfIndexFmt_fileOnly (c f : Nat) :
    sprintfIndexFmt ("%09[2]d") c f = goSprintf0d 9 f := by
  unfold sprintfIndexFmt
  rw [if_neg (by decide), if_pos rfl]

theorem sprintfIndexFmt_chunkOnly (c f : Nat) :
    sprintfIndexFmt ("%09[1]d") c f = goSprintf0d 9 c := by
  unfold sprintfIndexFmt
  rw [if_neg (by decide), if_neg (by decide)]

/-- The names of n successive NextName calls, in closed form: the file
index grows by one per call, every other namer field is untouched. -/
theorem nextNames_eq (namer : outputFileNamer) (ext : String) :
    ∀ N, nextNames namer ext N =
      (List.range N).map (fun i =>
        namer.DB ++ "." ++ namer.Table ++ "." ++
          sprintfIndexFmt namer.format namer.ChunkIndex (namer.FileIndex + i) ++
          "." ++ ext) := by
  intro N
  induction N generalizing namer with
  | zero => simp [nextNames]
  | succ N ih =>
    rw [nextNames, List.range_succ_eq_map, List.map_cons, List.map_map]
    refine congrArg₂ List.cons ?_ ?_
    · simp [outputFileNamer.NextName, outputFileNamer.renderData, outputFileNamer.Index]
    · rw [ih]
      refine List.map_congr_left ?_
      intro a _
      simp only [outputFileNamer.NextName, Function.comp]
      have h1 : namer.FileIndex + 1 + a = namer.FileIndex + (a + 1) := by omega
      rw [h1]

theorem iterNamer_eq (namer : outputFileNamer) (ext : String) :
    ∀ k, iterNamer namer ext k = { namer with FileIndex := namer.FileIndex + k } := by
  intro k
  induction k with
  | zero => rfl
  | succ k ih =>
    show ((iterNamer namer ext k).NextName ext).2 = _
    rw [ih]
    rfl

/-- Claim C2, counterexample: for a namer whose format carries only the
chunk index (row-count limit active, file-size limit inactive), two
successive NextName calls return the same file name, so the names are not
pairwise distinct as the claim states for every namer instance. -/
theorem nextNames_rowLimitOnly_not_distinct :
    ¬ (nextNames (newOutputFileNamer metaSample 0 true false) ("sql") 2).Nodup := by
  decide

/-- Claim C2 (amended): for every namer constructed with the file-size
limit active, N successive NextName calls (same template model, same
extension) yield names whose file-index component is exactly the call
number, increasing by 1 each call, with the chunk-index component (present
exactly when the row-count limit is also active) identical in all names;
consequently the N names are pairwise distinct. -/
theorem nextNames_sizeLimit_distinct (meta : TableMeta) (c : Nat) (rows : Bool)
    (ext : String) (N : Nat) :
    nextNames (newOutputFileNamer meta c rows true) ext N =
      (List.range N).map (fun i =>
        meta.DatabaseName ++ "." ++ meta.TableName ++ "." ++
          (if rows then goSprintf0d 9 c ++ goSprintf0d 4 i else goSprintf0d 9 i) ++
          "." ++ ext) ∧
    (nextNames (newOutputFileNamer meta c rows true) ext N).Nodup := by
  have hmap : nextNames (newOutputFileNamer meta c rows true) ext N =
      (List.range N).map (fun i =>
        meta.DatabaseName ++ "." ++ meta.TableName ++ "." ++
          (if rows then goSprintf0d 9 c ++ goSprintf0d 4 i else goSprintf0d 9 i) ++
          "." ++ ext) := by
    rw [nextNames_eq]
    refine List.map_congr_left ?_
    intro i _
    cases rows with
    | false =>
      show meta.DatabaseName ++ "." ++ meta.TableName ++ "." ++
          sprintfIndexFmt ("%09[2]d") c (0 + i) ++ "." ++ ext = _
      rw [sprintfIndexFmt_fileOnly, Nat.zero_add, if_neg (by simp)]
    | true =>
      show meta.DatabaseName ++ "." ++ meta.TableName ++ "." ++
          sprintfIndexFmt ("%09d%04d") c (0 + i) ++ "." ++ ext = _
      rw [sprintfIndexFmt_both, Nat.zero_add, if_pos rfl]
  refine ⟨hmap, ?_⟩
  cases rows with
  | false =>
    rw [nextNames_eq]
    have hfmt : (newOutputFileNamer meta c false true).format = "%09[2]d" := rfl
    simp only [hfmt, sprintfIndexFmt_fileOnly]
    refine List.Nodup.map_on ?_ (List.nodup_range N)
    intro x _ y _ hxy
    have hd := congrArg String.data hxy
    simp only [string_data_append, goSprintf0d_data, List.append_assoc] at hd
    replace hd := List.append_cancel_left hd
    replace hd := List.append_cancel_left hd
    replace hd := List.append_cancel_left hd
    replace hd := List.append_cancel_left hd
    replace hd := List.append_cancel_right hd
    have hval := goPadDecimal_injective 9 _ _ hd
    omega
  | true =>
    rw [nextNames_eq]
    have hfmt : (newOutputFileNamer meta c true true).format = "%09d%04d" := rfl
    simp only [hfmt, sprintfIndexFmt_both]
    refine List.Nodup.map_on ?_ (List.nodup_range N)
    intro x _ y _ hxy
    have hd := congrArg String.data hxy
    simp only [string_data_append, goSprintf0d_data, List.append_assoc] at hd
    replace hd := List.append_cancel_left hd
    replace hd := List.append_cancel_left hd
    replace hd := List.append_cancel_left hd
    replace hd := List.append_cancel_left hd
    replace hd := List.append_cancel_left hd
    replace hd := List.append_cancel_right hd
    have hval := goPadDecimal_injective 4 _ _ hd
    omega

/-- Claim C3: the index format of a namer is fixed at construction from the
two boolean switches exactly as the table states: both active renders the
chunk index zero-padded to width 9 followed by the file index zero-padded
to width 4; size-limit only renders the file index zero-padded to width 9
alone; row-limit only, and neither, render the chunk index zero-padded to
width 9 alone.  The rendering is stated for the namer state after any
number k of NextName calls, whose file index is then k. -/
theorem newOutputFileNamer_index_format (meta : TableMeta) (c : Nat)
    (ext : String) (k : Nat) :
    (newOutputFileNamer meta c true true).format = "%09d%04d" ∧
    (newOutputFileNamer meta c false true).format = "%09[2]d" ∧
    (newOutputFileNamer meta c true false).format = "%09[1]d" ∧
    (newOutputFileNamer meta c false false).format = "%09[1]d" ∧
    (iterNamer (newOutputFileNamer meta c true true) ext k).Index =
      goSprintf0d 9 c ++ goSprintf0d 4 k ∧
    (iterNamer (newOutputFileNamer meta c false true) ext k).Index = goSprintf0d 9 k ∧
    (iterNamer (newOutputFileNamer meta c true false) ext k).Index = goSprintf0d 9 c ∧
    (iterNamer (newOutputFileNamer meta c false false) ext k).Index = goSprintf0d 9 c := by
  refine ⟨rfl, rfl, rfl, rfl, ?_, ?_, ?_, ?_⟩
  · rw [iterNamer_eq]
    show sprintfIndexFmt ("%09d%04d") c (0 + k) = _
    rw [Nat.zero_add, sprintfIndexFmt_both]
  · rw [iterNamer_eq]
    show sprintfIndexFmt ("%09[2]d") c (0 + k) = _
    rw [Nat.zero_add, sprintfIndexFmt_fileOnly]
  · rw [iterNamer_eq]
    show sprintfIndexFmt ("%09[1]d") c (0 + k) = _
    rw [sprintfIndexFmt_chunkOnly]
  · rw [iterNamer_eq]
    show sprintfIndexFmt ("%09[1]d") c (0 + k) = _
    rw [sprintfIndexFmt_chunkOnly]

/- ---------------------------------------------------------------------
Writer theorems.
--------------------------------------------------------------------- -/

/-- Claim C1: for a TableData task, if the chunk write succeeds the
table-completion callback is invoked exactly once when the chunk index plus
one equals the declared total chunk count and not at all otherwise; and for
a task whose chunk index plus one differs from the total, the
table-completion callback is never invoked, whatever the write outcome. -/
theorem handleTask_tableData_finishTable {κ : Type} (env : WriteEnv) (w : Writer κ)
    (meta : TableMeta) (data : TableDataIR) (chunkIndex totalChunks : Nat) :
    (env.writeTableData meta data chunkIndex = none →
      (Writer.handleTask env w (Task.tableData meta data chunkIndex totalChunks)).2 =
        if chunkIndex + 1 = totalChunks then
          [WEvent.callback w.finishTableCallBack
            (Task.tableData meta data chunkIndex totalChunks)]
        else []) ∧
    (chunkIndex + 1 ≠ totalChunks →
      (Writer.handleTask env w (Task.tableData meta data chunkIndex totalChunks)).2 = []) := by
  constructor
  · intro h
    simp [Writer.handleTask, h, apply_ite]
  · intro h
    cases hw : env.writeTableData meta data chunkIndex with
    | some e => simp [Writer.handleTask, hw]
    | none => simp [Writer.handleTask, hw, h]

/-- Witness for claim C1 at concrete inputs: chunk 2 of 3 fires the
table callback once, chunk 2 of 4 does not. -/
theorem handleTask_tableData_finishTable_witness :
    (envAllOk.writeTableData metaSample 0 2 = none ∧
      (Writer.handleTask envAllOk wSample (Task.tableData metaSample 0 2 3)).2 =
        if 2 + 1 = 3 then
          [WEvent.callback wSample.finishTableCallBack (Task.tableData metaSample 0 2 3)]
        else []) ∧
    (2 + 1 ≠ 4 ∧
      (Writer.handleTask envAllOk wSample (Task.tableData metaSample 0 2 4)).2 = []) := by
  refine ⟨⟨rfl, ?_⟩, ⟨by decide, ?_⟩⟩
  · exact (handleTask_tableData_finishTable envAllOk wSample metaSample 0 2 3).1 rfl
  · exact (handleTask_tableData_finishTable envAllOk wSample metaSample 0 2 4).2 (by decide)

/-- Claim C8: the two callback setters write to the same internal field:
setFinishTableCallBack assigns its argument to the finishTaskCallBack field
and leaves the finishTableCallBack field unchanged, so registering a
callback through it has no effect at all on the table-completion behaviour
of handleTask. -/
theorem setFinishTableCallBack_assigns_task_field {κ : Type} (w : Writer κ) (fn : κ)
    (env : WriteEnv) (t : Task) :
    (w.setFinishTableCallBack fn).finishTaskCallBack = fn ∧
    (w.setFinishTableCallBack fn).finishTableCallBack = w.finishTableCallBack ∧
    Writer.handleTask env (w.setFinishTableCallBack fn) t = Writer.handleTask env w t := by
  refine ⟨rfl, rfl, ?_⟩
  cases t <;> rfl

/-- Claim C9: the run loop returns nil on the cancellation signal and on a
closed channel; a task whose handling fails makes run return that error at
once, with only that task received and no callback fired, independent of
the rest of the stream; and a successfully handled task fires the
task-completion callback with that task before the next receive. -/
theorem run_loop_behaviour {κ : Type} (env : WriteEnv) (w : Writer κ) (t : Task)
    (rest : List Recv) :
    Writer.run env w (Recv.cancelled :: rest) = (RunOutcome.done none, [], w) ∧
    Writer.run env w (Recv.closed :: rest) = (RunOutcome.done none, [], w) ∧
    (∀ e evs,
      Writer.handleTask env { w with receivedTaskCount := w.receivedTaskCount + 1 } t =
        (some e, evs) →
      Writer.run env w (Recv.task t :: rest) =
        (RunOutcome.done (some e), evs,
          { w with receivedTaskCount := w.receivedTaskCount + 1 })) ∧
    (∀ evs,
      Writer.handleTask env { w with receivedTaskCount := w.receivedTaskCount + 1 } t =
        (none, evs) →
      Writer.run env w (Recv.task t :: rest) =
        ((Writer.run env { w with receivedTaskCount := w.receivedTaskCount + 1 } rest).1,
          evs ++ WEvent.callback w.finishTaskCallBack t ::
            (Writer.run env { w with receivedTaskCount := w.receivedTaskCount + 1 } rest).2.1,
          (Writer.run env { w with receivedTaskCount := w.receivedTaskCount + 1 } rest).2.2)) := by
  refine ⟨rfl, rfl, ?_, ?_⟩
  · intro e evs h
    simp only [Writer.run]
    rw [h]
  · intro evs h
    simp only [Writer.run]
    rw [h]

/-- Witness for claim C9: a failing database-meta task stops the run with
its error and no callback, even with more stream behind it; cancellation
returns nil; a successful task fires the task callback. -/
theorem run_loop_behaviour_witness :
    Writer.run envDbFail wSample (Recv.task taskDbSample :: [Recv.task taskDbSample]) =
      (RunOutcome.done (some ("meta write failed")), [],
        { wSample with receivedTaskCount := wSample.receivedTaskCount + 1 }) ∧
    Writer.run envAllOk wSample (Recv.cancelled :: []) = (RunOutcome.done none, [], wSample) ∧
    Writer.run envAllOk wSample (Recv.task taskDbSample :: []) =
      (RunOutcome.blocked,
        [WEvent.callback wSample.finishTaskCallBack taskDbSample],
        { wSample with receivedTaskCount := wSample.receivedTaskCount + 1 }) := by
  refine ⟨?_, ?_, ?_⟩
  · exact (run_loop_behaviour envDbFail wSample taskDbSample
      [Recv.task taskDbSample]).2.2.1 ("meta write failed") [] rfl
  · exact (run_loop_behaviour envAllOk wSample taskDbSample []).1
  · exact (run_loop_behaviour envAllOk wSample taskDbSample []).2.2.2 [] rfl

/-- Claim C10: a task outside the four known variants is handled with a nil
result and no callback from handleTask, and the run loop goes on to the
rest of the stream, still firing the task-completion callback for it. -/
theorem handleTask_unknown_skipped {κ : Type} (env : WriteEnv) (w : Writer κ)
    (s : String) (rest : List Recv) :
    Writer.handleTask env w (Task.unknown s) = (none, []) ∧
    Writer.run env w (Recv.task (Task.unknown s) :: rest) =
      ((Writer.run env { w with receivedTaskCount := w.receivedTaskCount + 1 } rest).1,
        WEvent.callback w.finishTaskCallBack (Task.unknown s) ::
          (Writer.run env { w with receivedTaskCount := w.receivedTaskCount + 1 } rest).2.1,
        (Writer.run env { w with receivedTaskCount := w.receivedTaskCount + 1 } rest).2.2) :=
  ⟨rfl, rfl⟩

/- ---------------------------------------------------------------------
Chunk-write attempt theorems.
--------------------------------------------------------------------- -/

theorem startWriteClose_none (env : AttemptEnv) (h : env.start = none) :
    startWriteClose env =
      (env.writeTableData, [IREvent.start, IREvent.write, IREvent.close]) := by
  unfold startWriteClose
  rw [h]

theorem startWriteClose_some (env : AttemptEnv) (e : Err) (h : env.start = some e) :
    startWriteClose env = (some e, [IREvent.start]) := by
  unfold startWriteClose
  rw [h]

/-- Claim C7, counterexample: in an attempt where the row source Start is
invoked and returns an error, Close is not invoked before the attempt
returns, contradicting the claim that Close runs on every exit path
including the Start-error path. -/
theorem writeTableDataAttempt_startError_counterexample :
    IREvent.start ∈ (writeTableDataAttempt attemptEnvStartFail 1 0).2.1 ∧
    IREvent.close ∉ (writeTableDataAttempt attemptEnvStartFail 1 0).2.1 := by
  decide

/-- Claim C7 (amended): in every retry attempt in which Start is invoked
and succeeds, Close is invoked before the attempt returns, on success and
on error of the inner write alike; when Start returns an error, the attempt
returns without invoking Close. -/
theorem writeTableDataAttempt_close (env : AttemptEnv) (retryTime : Nat) (conn : Conn) :
    (IREvent.start ∈ (writeTableDataAttempt env retryTime conn).2.1 →
      env.start = none →
      IREvent.close ∈ (writeTableDataAttempt env retryTime conn).2.1) ∧
    (∀ e, env.start = some e →
      IREvent.close ∉ (writeTableDataAttempt env retryTime conn).2.1) := by
  constructor
  · intro hstart hnone
    unfold writeTableDataAttempt at hstart ⊢
    rw [startWriteClose_none env hnone] at hstart ⊢
    by_cases hrt : 1 < retryTime
    · rw [if_pos hrt] at hstart ⊢
      cases hr : env.rebuildConn conn with
      | error e =>
        rw [hr] at hstart
        simp at hstart
      | ok c2 => simp
    · rw [if_neg hrt] at hstart ⊢
      simp
  · intro e hsome
    unfold writeTableDataAttempt
    rw [startWriteClose_some env e hsome]
    by_cases hrt : 1 < retryTime
    · rw [if_pos hrt]
      cases hr : env.rebuildConn conn with
      | error e2 => simp
      | ok c2 => simp
    · rw [if_neg hrt]
      simp

/-- Witness for the amended claim C7: with a healthy row source the attempt
trace contains Close; with a failing Start it does not. -/
theorem writeTableDataAttempt_close_witness :
    (IREvent.start ∈ (writeTableDataAttempt attemptEnvOk 1 0).2.1 ∧
      attemptEnvOk.start = none ∧
      IREvent.close ∈ (writeTableDataAttempt attemptEnvOk 1 0).2.1) ∧
    (attemptEnvStartFail.start = some ("start failed") ∧
      IREvent.close ∉ (writeTableDataAttempt attemptEnvStartFail 1 0).2.1) := by
  refine ⟨⟨by decide, rfl, ?_⟩, ⟨rfl, ?_⟩⟩
  · exact (writeTableDataAttempt_close attemptEnvOk 1 0).1 (by decide) rfl
  · exact (writeTableDataAttempt_close attemptEnvStartFail 1 0).2 ("start failed") rfl

/- ---------------------------------------------------------------------
Consistency-controller theorems.
--------------------------------------------------------------------- -/

/-- Claim C4: for both the flush controller and the table-lock controller,
once TearDown has returned, every PingContext call returns the explicit
closed-connection error, never nil. -/
theorem pingContext_after_tearDown_closed (env env2 : ConnEnv)
    (cf : ConsistencyFlushTableWithReadLock) (cl : ConsistencyLockDumpingTables) :
    (cf.TearDown env).1.PingContext env2 = some closedConnErr ∧
    (cl.TearDown env).1.PingContext env2 = some closedConnErr := by
  constructor
  · obtain ⟨st, conn⟩ := cf
    cases conn <;> rfl
  · obtain ⟨conn, tables⟩ := cl
    cases conn <;> rfl

/-- Claim C5: Setup of the flush controller against TiDB returns the
explicit unsupported-operation error and issues no statement on the
connection. -/
theorem flushSetup_tidb_error (c : ConsistencyFlushTableWithReadLock) (env : ConnEnv)
    (h : c.serverType = ServerType.ServerTypeTiDB) :
    c.Setup env = (some flushOnTiDBErr, []) := by
  unfold ConsistencyFlushTableWithReadLock.Setup
  rw [if_pos h]

/-- Witness for claim C5 at a concrete TiDB controller. -/
theorem flushSetup_tidb_error_witness :
    ({ serverType := ServerType.ServerTypeTiDB, conn := some 0 } :
        ConsistencyFlushTableWithReadLock).serverType = ServerType.ServerTypeTiDB ∧
    ({ serverType := ServerType.ServerTypeTiDB, conn := some 0 } :
        ConsistencyFlushTableWithReadLock).Setup connEnvSample =
      (some flushOnTiDBErr, []) :=
  ⟨rfl, flushSetup_tidb_error _ connEnvSample rfl⟩

/-- Claim C6: the controller constructor fails before any Setup whenever
the consistency option is snapshot with a server type other than TiDB, and
whenever the option is not one of none, flush, lock, snapshot. -/
theorem newConsistencyController_config_errors (connResult : Except Err Conn)
    (conf : Config) :
    (conf.Consistency = consistencyTypeSnapshot →
      conf.ServerInfo.serverType ≠ ServerType.ServerTypeTiDB →
      ∃ e, NewConsistencyController connResult conf = Except.error e) ∧
    (conf.Consistency ≠ consistencyTypeNone →
      conf.Consistency ≠ consistencyTypeFlush →
      conf.Consistency ≠ consistencyTypeLock →
      conf.Consistency ≠ consistencyTypeSnapshot →
      ∃ e, NewConsistencyController connResult conf = Except.error e) := by
  cases connResult with
  | error e => exact ⟨fun _ _ => ⟨e, rfl⟩, fun _ _ _ _ => ⟨e, rfl⟩⟩
  | ok conn =>
    constructor
    · intro hsnap hty
      simp only [NewConsistencyController, hsnap]
      rw [if_neg (show ¬ consistencyTypeSnapshot = consistencyTypeFlush by decide)]
      rw [if_neg (show ¬ consistencyTypeSnapshot = consistencyTypeLock by decide)]
      rw [if_true]
      rw [if_pos hty]
      exact ⟨_, rfl⟩
    · intro h1 h2 h3 h4
      simp only [NewConsistencyController]
      rw [if_neg h2]
      rw [if_neg h3]
      rw [if_neg h4]
      rw [if_neg h1]
      exact ⟨_, rfl⟩

/-- Witness for claim C6: snapshot on MySQL and the unhandled option auto
both fail at construction. -/
theorem newConsistencyController_config_errors_witness :
    (confSnapshotMySQL.Consistency = consistencyTypeSnapshot ∧
      confSnapshotMySQL.ServerInfo.serverType ≠ ServerType.ServerTypeTiDB ∧
      ∃ e, NewConsistencyController (Except.ok 0) confSnapshotMySQL = Except.error e) ∧
    (confAuto.Consistency ≠ consistencyTypeNone ∧
      ∃ e, NewConsistencyController (Except.ok 0) confAuto = Except.error e) := by
  refine ⟨⟨rfl, by decide, ?_⟩, ⟨by decide, ?_⟩⟩
  · exact (newConsistencyController_config_errors (Except.ok 0) confSnapshotMySQL).1
      rfl (by decide)
  · exact (newConsistencyController_config_errors (Except.ok 0) confAuto).2
      (by decide) (by decide) (by decide) (by decide)

end Dumpling
